import Mathlib

/-!
# Terrain command protocol: shallow embedding

A shallow embedding of `emergence_lib/src/terrain/commands.rs`: the five deferred
commands (spawn terrain, spawn ghost, spawn preview, despawn ghost, apply
terraforming) acting on a world of entities plus the spatial index
(`MapGeometry`).  Collaborator types that live outside the translated file
(`MapGeometry`, `Height`, the bundle constructors, the asset-handle resources)
are modelled from the specification; each such definition says so in its doc
comment.  Commands that can hit a failing `unwrap` return a `CmdResult` that
records the world at the point of the abort.
-/

namespace Emergence

/-- Identifier of a terrain type (`Id<Terrain>` in the source), modelled as a key. -/
abbrev TerrainId := Nat

/-- An opaque asset handle (`Handle<T>` in the source), modelled as a key. -/
abbrev AssetHandle := Nat

/-- A tile coordinate (`TilePos` in the source): a discrete 2D grid coordinate. -/
structure TilePos where
  x : Int
  y : Int
deriving DecidableEq, Repr

/-- Modelled from the spec: `Height` is a scalar elevation value with unit-step
raise/lower operations.  The source wraps an `f32`; the step arithmetic lives
outside the translated file, so per the spec ("raise: +1 step, lower: -1 step",
"restores the original height exactly") it is modelled as exact integer steps. -/
structure Height where
  val : Int
deriving DecidableEq, Repr

instance : Add Height := ⟨fun a b => ⟨a.val + b.val⟩⟩

instance : Sub Height := ⟨fun a b => ⟨a.val - b.val⟩⟩

/-- Modelled from the spec: `Height::raise` increases the height by one unit step. -/
def Height.raise (h : Height) : Height := ⟨h.val + 1⟩

/-- Modelled from the spec: `Height::lower` decreases the height by one unit step. -/
def Height.lower (h : Height) : Height := ⟨h.val - 1⟩

/-- Modelled from the spec: `Height::into_world_pos` converts a height into world
units (a vertical world coordinate). -/
def Height.into_world_pos (h : Height) : ℚ := (h.val : ℚ)

/-- A terraforming action (`TerraformingAction` in the source). -/
inductive TerraformingAction where
  | raiseAction
  | lowerAction
  | change (id : TerrainId)
deriving DecidableEq, Repr

/-- The kind of a ghost-like overlay entity (`GhostKind` in the source, restricted
to the two kinds this file uses). -/
inductive GhostKind where
  | ghost
  | preview
deriving DecidableEq, Repr

/-- Modelled from the spec: the per-tile pending-edit/zoning marker (`Zoning`,
outside the translated file); `clear` is the "none" state meaning no pending
request. -/
inductive Zoning where
  | clear
  | marked (action : TerraformingAction)
deriving DecidableEq, Repr

/-- A world-space position (`Vec3` in the source, over exact scalars). -/
structure Vec3 where
  x : ℚ
  y : ℚ
  z : ℚ
deriving DecidableEq, Repr

/-- Visibility of a rendered entity (`Visibility` in the source). -/
inductive Visibility where
  | inherited
  | hidden
  | visible
deriving DecidableEq, Repr

/-- The spatial part of a `Transform`: translation and scale. -/
structure Transform where
  translation : Vec3
  scale : Vec3
deriving DecidableEq, Repr

/-- The default transform: zero translation, unit scale. -/
def Transform.default : Transform := ⟨⟨0, 0, 0⟩, ⟨1, 1, 1⟩⟩

/-- `Transform::from_scale`: zero translation, the given scale. -/
def Transform.from_scale (v : Vec3) : Transform := ⟨⟨0, 0, 0⟩, v⟩

/-- Modelled from the spec: resource-cost previews are opaque values derived from
the action (`input_inventory`/`output_inventory` live outside the translated file). -/
inductive Inventory where
  | inputOf (a : TerraformingAction)
  | outputOf (a : TerraformingAction)
deriving DecidableEq, Repr

/-- Modelled from the spec: the input resource cost of an action, opaque data. -/
def TerraformingAction.input_inventory (a : TerraformingAction) : Inventory :=
  Inventory.inputOf a

/-- Modelled from the spec: the output resource cost of an action, opaque data. -/
def TerraformingAction.output_inventory (a : TerraformingAction) : Inventory :=
  Inventory.outputOf a

/-- Lookup in a key-value list (hash-map `get` semantics). -/
def lookupAt {α : Type} (l : List (TilePos × α)) (t : TilePos) : Option α :=
  (l.find? (fun p => p.1 == t)).map (·.2)

/-- Remove every entry with the given key (hash-map `remove` semantics). -/
def removeAt {α : Type} (l : List (TilePos × α)) (t : TilePos) : List (TilePos × α) :=
  l.filter (fun p => !(p.1 == t))

/-- Insert with overwrite (hash-map `insert` semantics). -/
def upsertAt {α : Type} (l : List (TilePos × α)) (t : TilePos) (v : α) :
    List (TilePos × α) :=
  (t, v) :: removeAt l t

/-- Modelled from the spec: the Spatial Index (`MapGeometry`, outside the
translated file): authoritative association of tile coordinate to terrain
entity, ghost entity and height, plus the map-extent validity check.  The maps
are modelled as key-value lists with overwrite-on-insert (hash-map semantics). -/
structure MapGeometry where
  extent : Nat
  terrainIndex : List (TilePos × Nat)
  ghostIndex : List (TilePos × Nat)
  heights : List (TilePos × Height)
deriving DecidableEq, Repr

/-- Modelled from the spec: `is_valid` checks the tile against the map extent. -/
def MapGeometry.is_valid (g : MapGeometry) (t : TilePos) : Bool :=
  t.x.natAbs ≤ g.extent && t.y.natAbs ≤ g.extent

/-- Modelled from the spec: `update_height` is an unconditional upsert. -/
def MapGeometry.update_height (g : MapGeometry) (t : TilePos) (h : Height) :
    MapGeometry :=
  { g with heights := upsertAt g.heights t h }

/-- Modelled from the spec: `get_height` looks up the recorded height. -/
def MapGeometry.get_height (g : MapGeometry) (t : TilePos) : Option Height :=
  lookupAt g.heights t

/-- Modelled from the spec: `add_terrain` records/overwrites the terrain entity. -/
def MapGeometry.add_terrain (g : MapGeometry) (t : TilePos) (e : Nat) : MapGeometry :=
  { g with terrainIndex := upsertAt g.terrainIndex t e }

/-- Modelled from the spec: `get_terrain` looks up the terrain entity for a tile. -/
def MapGeometry.get_terrain (g : MapGeometry) (t : TilePos) : Option Nat :=
  lookupAt g.terrainIndex t

/-- Modelled from the spec: `add_ghost_terrain` records the ghost entity for a tile. -/
def MapGeometry.add_ghost_terrain (g : MapGeometry) (e : Nat) (t : TilePos) :
    MapGeometry :=
  { g with ghostIndex := upsertAt g.ghostIndex t e }

/-- Modelled from the spec: `get_ghost_terrain` looks up the ghost entity for a tile. -/
def MapGeometry.get_ghost_terrain (g : MapGeometry) (t : TilePos) : Option Nat :=
  lookupAt g.ghostIndex t

/-- Modelled from the spec: `remove_ghost_terrain` removes and returns the prior
ghost entity for the tile, or none. -/
def MapGeometry.remove_ghost_terrain (g : MapGeometry) (t : TilePos) :
    Option Nat × MapGeometry :=
  (lookupAt g.ghostIndex t, { g with ghostIndex := removeAt g.ghostIndex t })

/-- Modelled from the spec: `TilePos::into_world_pos` derives the tile's planar
world position from map geometry (vertical component from the recorded height;
callers that care about the vertical component override it). -/
def TilePos.into_world_pos (t : TilePos) (g : MapGeometry) : Vec3 :=
  ⟨(t.x : ℚ), ((g.get_height t).getD ⟨0⟩).into_world_pos, (t.y : ℚ)⟩

/-- The component data an entity can carry (one field per component type used by
the terrain commands; `none` means the component is absent). -/
structure Components where
  tile : Option TilePos := none
  terrainId : Option TerrainId := none
  height : Option Height := none
  scene : Option AssetHandle := none
  zoning : Option Zoning := none
  mesh : Option AssetHandle := none
  material : Option AssetHandle := none
  inheritedMaterial : Option AssetHandle := none
  visibility : Option Visibility := none
  transform : Option Transform := none
  action : Option TerraformingAction := none
  inputInv : Option Inventory := none
  outputInv : Option Inventory := none
  marker : Option GhostKind := none
deriving DecidableEq, Repr

/-- A live entity: its id, its optional parent in the hierarchy, its components. -/
structure EntityRecord where
  id : Nat
  parent : Option Nat
  comps : Components
deriving DecidableEq, Repr

/-- Modelled from the spec: terrain visual assets (`TerrainHandles`, outside the
translated file): a scene handle per terrain type plus the shared topper and
column meshes and the column material. -/
structure TerrainHandles where
  scenes : List (TerrainId × AssetHandle)
  topper_mesh : AssetHandle
  column_mesh : AssetHandle
  column_material : AssetHandle
deriving DecidableEq, Repr

/-- `handles.scenes.get(&terrain_id)`: scene-handle lookup for a terrain type. -/
def TerrainHandles.get_scene (h : TerrainHandles) (id : TerrainId) :
    Option AssetHandle :=
  (h.scenes.find? (fun p => p.1 == id)).map (·.2)

/-- Modelled from the spec: ghost tint materials (`GhostHandles`, outside the
translated file). -/
structure GhostHandles where
  ghostMaterial : AssetHandle
  previewMaterial : AssetHandle
deriving DecidableEq, Repr

/-- `GhostHandles::get_material`: the tint material for a ghost kind. -/
def GhostHandles.get_material (h : GhostHandles) : GhostKind → AssetHandle
  | GhostKind.ghost => h.ghostMaterial
  | GhostKind.preview => h.previewMaterial

/-- The shared world: the spatial index, the two handle resources, the entity
id allocator and the list of live entities (in spawn order). -/
structure World where
  geometry : MapGeometry
  terrainHandles : TerrainHandles
  ghostHandles : GhostHandles
  nextId : Nat
  entities : List EntityRecord
deriving DecidableEq, Repr

/-- `world.spawn(bundle)`: allocate a fresh id and append a new root entity. -/
def World.spawn (w : World) (c : Components) : World × Nat :=
  ({ w with
      nextId := w.nextId + 1
      entities := w.entities ++ [⟨w.nextId, none, c⟩] }, w.nextId)

/-- `world.entities().contains(e)`: whether an entity with this id is live. -/
def World.contains (w : World) (e : Nat) : Bool :=
  w.entities.any (fun r => r.id == e)

/-- `world.entity_mut(parent).add_child(child)`: set the child's parent. -/
def World.add_child (w : World) (parent child : Nat) : World :=
  { w with
      entities := w.entities.map
        (fun r => if r.id == child then { r with parent := some parent } else r) }

/-- Find the (first) live entity record with the given id. -/
def World.find (w : World) (e : Nat) : Option EntityRecord :=
  w.entities.find? (fun r => r.id == e)

/-- The ids of the children of an entity, in spawn order. -/
def World.childrenOf (w : World) (e : Nat) : List Nat :=
  (w.entities.filter (fun r => r.parent == some e)).map (·.id)

/-- Whether entity `d` is `a` itself or a descendant of `a`, following parent
links for at most `fuel` steps. -/
def World.isDescendantOf (w : World) : Nat → Nat → Nat → Bool
  | 0, _, _ => false
  | fuel + 1, d, a =>
    d == a ||
      match w.find d with
      | some r =>
        match r.parent with
        | some p => w.isDescendantOf fuel p a
        | none => false
      | none => false

/-- Enough fuel to follow any acyclic parent chain in the world. -/
def World.fuel (w : World) : Nat := w.entities.length + 1

/-- `despawn_recursive`: remove the entity and every descendant of it. -/
def World.despawn_recursive (w : World) (e : Nat) : World :=
  { w with
      entities := w.entities.filter
        (fun r => !(w.isDescendantOf w.fuel r.id e)) }

/-- Apply a function to the components of the entity with the given id. -/
def World.modifyComps (w : World) (e : Nat) (f : Components → Components) : World :=
  { w with
      entities := w.entities.map
        (fun r => if r.id == e then { r with comps := f r.comps } else r) }

/-- The result of applying one command: `ok` on normal completion, `panicked` on
a failing `unwrap` (carrying the world at the point of the abort). -/
inductive CmdResult where
  | ok : World → CmdResult
  | panicked : World → CmdResult
deriving DecidableEq, Repr

/-- The world carried by a command result (final world, or world at the abort). -/
def CmdResult.world : CmdResult → World
  | CmdResult.ok w => w
  | CmdResult.panicked w => w

/-- Whether a command completed normally (did not abort on a failing unwrap). -/
def CmdResult.isOk : CmdResult → Bool
  | CmdResult.ok _ => true
  | CmdResult.panicked _ => false

/-- Makes the overlays ever so slightly larger than their base to avoid
z-fighting (`OVERLAY_OVERSIZE_SCALE = 1.001` in the source, exact here). -/
def OVERLAY_OVERSIZE_SCALE : ℚ := 1001 / 1000

/-- Modelled from the spec: the Terrain template (`TerrainBundle::new`, outside
the translated file): the root carries the terrain-type id, the coordinate, the
height recorded in the Spatial Index, the visual scene handle and the topper
mesh, with the zoning marker initialised clear. -/
def TerrainBundle.new (terrainId : TerrainId) (t : TilePos)
    (scene mesh : AssetHandle) (g : MapGeometry) : Components :=
  { tile := some t
    terrainId := some terrainId
    height := some ((g.get_height t).getD ⟨0⟩)
    scene := some scene
    mesh := some mesh
    zoning := some Zoning.clear
    visibility := some Visibility.inherited
    transform := some Transform.default }

/-- Modelled from the spec: the Ghost template (`GhostTerrainBundle::new`,
outside the translated file): the root carries the previewed action, the
coordinate, the scene handle, the ghost tint, the computed world position and
the input/output resource-cost previews, and is marked as a ghost. -/
def GhostTerrainBundle.new (action : TerraformingAction) (t : TilePos)
    (scene inherited : AssetHandle) (pos : Vec3) (inInv outInv : Inventory) :
    Components :=
  { tile := some t
    action := some action
    scene := some scene
    inheritedMaterial := some inherited
    transform := some ⟨pos, ⟨1, 1, 1⟩⟩
    inputInv := some inInv
    outputInv := some outInv
    marker := some GhostKind.ghost }

/-- Modelled from the spec: the Preview template (`TerrainPreviewBundle::new`,
outside the translated file): the root carries the coordinate, the action, the
scene handle, the tint and the world position; no resource-cost data; marked as
a preview. -/
def TerrainPreviewBundle.new (t : TilePos) (action : TerraformingAction)
    (scene inherited : AssetHandle) (pos : Vec3) : Components :=
  { tile := some t
    action := some action
    scene := some scene
    inheritedMaterial := some inherited
    transform := some ⟨pos, ⟨1, 1, 1⟩⟩
    marker := some GhostKind.preview }

/-- `SpawnTerrainCommand`: spawn a new terrain tile, overwriting existing
terrain (fields as in the source). -/
structure SpawnTerrainCommand where
  tile_pos : TilePos
  height : Height
  terrain_id : TerrainId
deriving DecidableEq, Repr

/-- `SpawnTerrainCommand::write`, step for step: look up the scene handle for
the terrain type (a failing lookup panics before any mutation), store the
height in the index, spawn the terrain root from the Terrain template, spawn
and attach the column as child 0 and the hidden oversized overlay as child 1,
then register the terrain entity in the index. -/
def SpawnTerrainCommand.write (c : SpawnTerrainCommand) (w : World) : CmdResult :=
  match w.terrainHandles.get_scene c.terrain_id with
  | none => CmdResult.panicked w
  | some scene_handle =>
    let mesh := w.terrainHandles.topper_mesh
    let w1 : World := { w with geometry := w.geometry.update_height c.tile_pos c.height }
    let spawned := w1.spawn (TerrainBundle.new c.terrain_id c.tile_pos scene_handle mesh w1.geometry)
    let w2 := spawned.1
    let terrain_entity := spawned.2
    let column_bundle : Components :=
      { mesh := some w.terrainHandles.column_mesh
        material := some w.terrainHandles.column_material
        visibility := some Visibility.inherited
        transform := some Transform.default }
    let spawnedCol := w2.spawn column_bundle
    let w3 := spawnedCol.1
    let hex_column := spawnedCol.2
    let w4 := w3.add_child terrain_entity hex_column
    let overlay_bundle : Components :=
      { mesh := some w.terrainHandles.topper_mesh
        visibility := some Visibility.hidden
        transform := some (Transform.from_scale
          ⟨OVERLAY_OVERSIZE_SCALE, OVERLAY_OVERSIZE_SCALE, OVERLAY_OVERSIZE_SCALE⟩) }
    let spawnedOv := w4.spawn overlay_bundle
    let w5 := spawnedOv.1
    let overlay := spawnedOv.2
    let w6 := w5.add_child terrain_entity overlay
    CmdResult.ok { w6 with geometry := w6.geometry.add_terrain c.tile_pos terrain_entity }

/-- `SpawnTerrainGhostCommand`: spawn a ghost or preview (fields as in the source). -/
structure SpawnTerrainGhostCommand where
  tile_pos : TilePos
  terrain_id : TerrainId
  terraforming_action : TerraformingAction
  ghost_kind : GhostKind
deriving DecidableEq, Repr

/-- The ghost-replacement step of `SpawnTerrainGhostCommand::write` (the block
headed "Remove any existing ghost terrain"): if a ghost is indexed at the tile,
is still live, and the command spawns a Ghost, despawn it recursively and then
remove it from the index. -/
def SpawnTerrainGhostCommand.removeExisting (c : SpawnTerrainGhostCommand)
    (w : World) : World :=
  match w.geometry.get_ghost_terrain c.tile_pos with
  | some ghost_entity =>
    if w.contains ghost_entity && c.ghost_kind == GhostKind.ghost then
      let wd := w.despawn_recursive ghost_entity
      { wd with geometry := (wd.geometry.remove_ghost_terrain c.tile_pos).2 }
    else w
  | none => w

/-- The projected height computed inside `SpawnTerrainGhostCommand::write`: the
current height adjusted by the pending action (raise: plus one step, lower:
minus one step, otherwise unchanged). -/
def projectedHeight (a : TerraformingAction) (current_height : Height) : Height :=
  match a with
  | TerraformingAction.raiseAction => current_height + Height.mk 1
  | TerraformingAction.lowerAction => current_height - Height.mk 1
  | _ => current_height

/-- The construction step of `SpawnTerrainGhostCommand::write`, run on the world
left by the replacement step: look up the scene handle (a failing lookup panics
here, after the removal); read the current height (a missing height panics);
project the height by the action; place the entity at the tile's planar
position with the vertical component overridden by the projected height in
world units; spawn a Ghost (and register it in the index) or a Preview
(unindexed). -/
def SpawnTerrainGhostCommand.construct (c : SpawnTerrainGhostCommand)
    (w1 : World) : CmdResult :=
  match w1.terrainHandles.get_scene c.terrain_id with
  | none => CmdResult.panicked w1
  | some scene_handle =>
    let inherited_material := w1.ghostHandles.get_material c.ghost_kind
    match w1.geometry.get_height c.tile_pos with
    | none => CmdResult.panicked w1
    | some current_height =>
      let new_height := projectedHeight c.terraforming_action current_height
      let world_pos0 := c.tile_pos.into_world_pos w1.geometry
      let world_pos : Vec3 := { world_pos0 with y := new_height.into_world_pos }
      match c.ghost_kind with
      | GhostKind.ghost =>
        let input_inventory := c.terraforming_action.input_inventory
        let output_inventory := c.terraforming_action.output_inventory
        let spawned := w1.spawn (GhostTerrainBundle.new c.terraforming_action
          c.tile_pos scene_handle inherited_material world_pos
          input_inventory output_inventory)
        CmdResult.ok { spawned.1 with
          geometry := spawned.1.geometry.add_ghost_terrain spawned.2 c.tile_pos }
      | GhostKind.preview =>
        let spawned := w1.spawn (TerrainPreviewBundle.new c.tile_pos
          c.terraforming_action scene_handle inherited_material world_pos)
        CmdResult.ok spawned.1

/-- `SpawnTerrainGhostCommand::write`, step for step: return silently if the
tile is out of bounds; otherwise run the ghost-replacement step followed by the
construction step. -/
def SpawnTerrainGhostCommand.write (c : SpawnTerrainGhostCommand) (w : World) :
    CmdResult :=
  if !(w.geometry.is_valid c.tile_pos) then CmdResult.ok w
  else c.construct (c.removeExisting w)

/-- `DespawnGhostCommand`: despawn the ghost at a tile, if any. -/
structure DespawnGhostCommand where
  tile_pos : TilePos
deriving DecidableEq, Repr

/-- `DespawnGhostCommand::write`, step for step: remove the tile's ghost entry
from the index; if none existed, return; otherwise recursively despawn the
entity (taking `entity_mut` on a dead entity panics, after the index removal). -/
def DespawnGhostCommand.write (c : DespawnGhostCommand) (w : World) : CmdResult :=
  let res := w.geometry.remove_ghost_terrain c.tile_pos
  let w1 : World := { w with geometry := res.2 }
  match res.1 with
  | none => CmdResult.ok w1
  | some ghost_entity =>
    if w1.contains ghost_entity then CmdResult.ok (w1.despawn_recursive ghost_entity)
    else CmdResult.panicked w1

/-- `ApplyTerraformingCommand`: apply a terraforming action to a tile. -/
structure ApplyTerraformingCommand where
  tile_pos : TilePos
  terraforming_action : TerraformingAction
deriving DecidableEq, Repr

/-- `ApplyTerraformingCommand::write`, step for step: look up the tile's terrain
entity (a missing entity panics, before any mutation), fetch its terrain-id,
zoning, height and scene components (a missing one panics), mutate the height
(raise/lower) or the terrain id (change); for change, look up the new scene
handle (a failing lookup panics here, after the terrain-id mutation) and
replace the scene handle; write the resulting entity height into the index and
reset the zoning marker. -/
def ApplyTerraformingCommand.write (c : ApplyTerraformingCommand) (w : World) :
    CmdResult :=
  match w.geometry.get_terrain c.tile_pos with
  | none => CmdResult.panicked w
  | some terrain_entity =>
    match w.find terrain_entity with
    | none => CmdResult.panicked w
    | some r =>
      match r.comps.terrainId, r.comps.zoning, r.comps.height, r.comps.scene with
      | some _, some _, some height0, some _ =>
        match c.terraforming_action with
        | TerraformingAction.raiseAction =>
          let new_height := height0.raise
          let w1 := w.modifyComps terrain_entity
            (fun cs => { cs with height := some new_height })
          let w3 : World := { w1 with
            geometry := w1.geometry.update_height c.tile_pos new_height }
          CmdResult.ok (w3.modifyComps terrain_entity
            (fun cs => { cs with zoning := some Zoning.clear }))
        | TerraformingAction.lowerAction =>
          let new_height := height0.lower
          let w1 := w.modifyComps terrain_entity
            (fun cs => { cs with height := some new_height })
          let w3 : World := { w1 with
            geometry := w1.geometry.update_height c.tile_pos new_height }
          CmdResult.ok (w3.modifyComps terrain_entity
            (fun cs => { cs with zoning := some Zoning.clear }))
        | TerraformingAction.change changed_id =>
          let w1 := w.modifyComps terrain_entity
            (fun cs => { cs with terrainId := some changed_id })
          match w1.terrainHandles.get_scene changed_id with
          | none => CmdResult.panicked w1
          | some s =>
            let w2 := w1.modifyComps terrain_entity
              (fun cs => { cs with scene := some s })
            let w3 : World := { w2 with
              geometry := w2.geometry.update_height c.tile_pos height0 }
            CmdResult.ok (w3.modifyComps terrain_entity
              (fun cs => { cs with zoning := some Zoning.clear }))
      | _, _, _, _ => CmdResult.panicked w

/-- The five command kinds of the deferred command queue, as submitted through
`TerrainCommandsExt` (spawn ghost and spawn preview fix the ghost kind). -/
inductive Cmd where
  | spawnTerrain (tile_pos : TilePos) (height : Height) (terrain_id : TerrainId)
  | spawnGhost (tile_pos : TilePos) (terrain_id : TerrainId) (action : TerraformingAction)
  | spawnPreview (tile_pos : TilePos) (terrain_id : TerrainId) (action : TerraformingAction)
  | despawnGhost (tile_pos : TilePos)
  | applyTerraforming (tile_pos : TilePos) (action : TerraformingAction)
deriving DecidableEq, Repr

/-- Dispatch one submitted command to its `write` implementation. -/
def Cmd.write : Cmd → World → CmdResult
  | Cmd.spawnTerrain t h id => SpawnTerrainCommand.write ⟨t, h, id⟩
  | Cmd.spawnGhost t id a => SpawnTerrainGhostCommand.write ⟨t, id, a, GhostKind.ghost⟩
  | Cmd.spawnPreview t id a => SpawnTerrainGhostCommand.write ⟨t, id, a, GhostKind.preview⟩
  | Cmd.despawnGhost t => DespawnGhostCommand.write ⟨t⟩
  | Cmd.applyTerraforming t a => ApplyTerraformingCommand.write ⟨t, a⟩

/-- Apply a queue of commands in submission order; a panicking command stops the
run with the world at the abort. -/
def runSeq : List Cmd → World → World
  | [], w => w
  | c :: cs, w =>
    match c.write w with
    | CmdResult.ok w1 => runSeq cs w1
    | CmdResult.panicked w1 => w1

/-! ## Projection lemmas -/

@[simp] theorem World.spawn_fst_geometry (w : World) (c : Components) :
    (w.spawn c).1.geometry = w.geometry := rfl

@[simp] theorem World.spawn_fst_terrainHandles (w : World) (c : Components) :
    (w.spawn c).1.terrainHandles = w.terrainHandles := rfl

@[simp] theorem World.spawn_fst_ghostHandles (w : World) (c : Components) :
    (w.spawn c).1.ghostHandles = w.ghostHandles := rfl

@[simp] theorem World.spawn_fst_nextId (w : World) (c : Components) :
    (w.spawn c).1.nextId = w.nextId + 1 := rfl

@[simp] theorem World.spawn_fst_entities (w : World) (c : Components) :
    (w.spawn c).1.entities = w.entities ++ [⟨w.nextId, none, c⟩] := rfl

@[simp] theorem World.spawn_snd (w : World) (c : Components) :
    (w.spawn c).2 = w.nextId := rfl

@[simp] theorem World.add_child_geometry (w : World) (p c : Nat) :
    (w.add_child p c).geometry = w.geometry := rfl

@[simp] theorem World.add_child_terrainHandles (w : World) (p c : Nat) :
    (w.add_child p c).terrainHandles = w.terrainHandles := rfl

@[simp] theorem World.add_child_nextId (w : World) (p c : Nat) :
    (w.add_child p c).nextId = w.nextId := rfl

@[simp] theorem World.despawn_recursive_geometry (w : World) (e : Nat) :
    (w.despawn_recursive e).geometry = w.geometry := rfl

@[simp] theorem World.despawn_recursive_terrainHandles (w : World) (e : Nat) :
    (w.despawn_recursive e).terrainHandles = w.terrainHandles := rfl

@[simp] theorem World.despawn_recursive_ghostHandles (w : World) (e : Nat) :
    (w.despawn_recursive e).ghostHandles = w.ghostHandles := rfl

@[simp] theorem World.despawn_recursive_nextId (w : World) (e : Nat) :
    (w.despawn_recursive e).nextId = w.nextId := rfl

@[simp] theorem World.modifyComps_geometry (w : World) (e : Nat)
    (f : Components → Components) : (w.modifyComps e f).geometry = w.geometry := rfl

@[simp] theorem World.modifyComps_terrainHandles (w : World) (e : Nat)
    (f : Components → Components) :
    (w.modifyComps e f).terrainHandles = w.terrainHandles := rfl

@[simp] theorem MapGeometry.update_height_terrainIndex (g : MapGeometry)
    (t : TilePos) (h : Height) : (g.update_height t h).terrainIndex = g.terrainIndex := rfl

@[simp] theorem MapGeometry.update_height_ghostIndex (g : MapGeometry)
    (t : TilePos) (h : Height) : (g.update_height t h).ghostIndex = g.ghostIndex := rfl

@[simp] theorem MapGeometry.update_height_heights (g : MapGeometry)
    (t : TilePos) (h : Height) : (g.update_height t h).heights = upsertAt g.heights t h := rfl

@[simp] theorem MapGeometry.add_terrain_terrainIndex (g : MapGeometry)
    (t : TilePos) (e : Nat) : (g.add_terrain t e).terrainIndex = upsertAt g.terrainIndex t e := rfl

@[simp] theorem MapGeometry.add_terrain_ghostIndex (g : MapGeometry)
    (t : TilePos) (e : Nat) : (g.add_terrain t e).ghostIndex = g.ghostIndex := rfl

@[simp] theorem MapGeometry.add_terrain_heights (g : MapGeometry)
    (t : TilePos) (e : Nat) : (g.add_terrain t e).heights = g.heights := rfl

@[simp] theorem MapGeometry.add_ghost_terrain_terrainIndex (g : MapGeometry)
    (e : Nat) (t : TilePos) : (g.add_ghost_terrain e t).terrainIndex = g.terrainIndex := rfl

@[simp] theorem MapGeometry.add_ghost_terrain_ghostIndex (g : MapGeometry)
    (e : Nat) (t : TilePos) : (g.add_ghost_terrain e t).ghostIndex = upsertAt g.ghostIndex t e := rfl

@[simp] theorem MapGeometry.add_ghost_terrain_heights (g : MapGeometry)
    (e : Nat) (t : TilePos) : (g.add_ghost_terrain e t).heights = g.heights := rfl

@[simp] theorem MapGeometry.remove_ghost_terrain_snd_terrainIndex (g : MapGeometry)
    (t : TilePos) : (g.remove_ghost_terrain t).2.terrainIndex = g.terrainIndex := rfl

@[simp] theorem MapGeometry.remove_ghost_terrain_snd_ghostIndex (g : MapGeometry)
    (t : TilePos) : (g.remove_ghost_terrain t).2.ghostIndex = removeAt g.ghostIndex t := rfl

@[simp] theorem MapGeometry.remove_ghost_terrain_snd_heights (g : MapGeometry)
    (t : TilePos) : (g.remove_ghost_terrain t).2.heights = g.heights := rfl

@[simp] theorem MapGeometry.remove_ghost_terrain_fst (g : MapGeometry)
    (t : TilePos) : (g.remove_ghost_terrain t).1 = lookupAt g.ghostIndex t := rfl

/-! ## Key-value list lemmas -/

/-- The number of index entries recorded for a tile. -/
def countEntries {α : Type} (l : List (TilePos × α)) (t : TilePos) : Nat :=
  l.countP (fun p => p.1 == t)

theorem countEntries_removeAt_self {α : Type} (l : List (TilePos × α)) (t : TilePos) :
    countEntries (removeAt l t) t = 0 := by
  unfold countEntries removeAt
  rw [List.countP_filter]
  simp

theorem countEntries_removeAt_le {α : Type} (l : List (TilePos × α)) (t u : TilePos) :
    countEntries (removeAt l t) u ≤ countEntries l u := by
  unfold countEntries removeAt
  rw [List.countP_filter]
  exact List.countP_mono_left (fun x _ hx => by
    simp only [Bool.and_eq_true] at hx
    exact hx.1)

/-- Every tile has at most one entry in the key-value list. -/
def AtMostOne {α : Type} (l : List (TilePos × α)) : Prop :=
  ∀ t, countEntries l t ≤ 1

theorem AtMostOne.removeAt {α : Type} {l : List (TilePos × α)} (h : AtMostOne l)
    (t : TilePos) : AtMostOne (Emergence.removeAt l t) :=
  fun u => le_trans (countEntries_removeAt_le l t u) (h u)

theorem AtMostOne.upsertAt {α : Type} {l : List (TilePos × α)} (h : AtMostOne l)
    (t : TilePos) (v : α) : AtMostOne (Emergence.upsertAt l t v) := by
  intro u
  unfold Emergence.upsertAt
  by_cases hu : t = u
  · subst hu
    unfold countEntries
    rw [List.countP_cons_of_pos _ _ (by simp)]
    have h0 := countEntries_removeAt_self l t
    unfold countEntries at h0
    omega
  · unfold countEntries
    rw [List.countP_cons_of_neg _ _ (by simp [hu])]
    exact le_trans (countEntries_removeAt_le l t u) (h u)

/-- The Spatial Index is well formed: at most one terrain entry and at most one
ghost entry per tile. -/
def IndexWF (g : MapGeometry) : Prop :=
  AtMostOne g.terrainIndex ∧ AtMostOne g.ghostIndex

/-! ## Index well-formedness is preserved by every command -/

theorem spawnTerrain_preserves_IndexWF (c : SpawnTerrainCommand) (w : World)
    (h : IndexWF w.geometry) : IndexWF (c.write w).world.geometry := by
  unfold SpawnTerrainCommand.write
  split
  · exact h
  · refine ⟨?_, ?_⟩
    · simpa [CmdResult.world] using h.1.upsertAt _ _
    · simpa [CmdResult.world] using h.2

theorem removeExisting_preserves_IndexWF (c : SpawnTerrainGhostCommand) (w : World)
    (h : IndexWF w.geometry) : IndexWF (c.removeExisting w).geometry := by
  unfold SpawnTerrainGhostCommand.removeExisting
  split
  · split
    · exact ⟨by simpa using h.1, by simpa using h.2.removeAt _⟩
    · exact h
  · exact h

theorem construct_preserves_IndexWF (c : SpawnTerrainGhostCommand) (w1 : World)
    (h : IndexWF w1.geometry) : IndexWF (c.construct w1).world.geometry := by
  unfold SpawnTerrainGhostCommand.construct
  split
  · exact h
  · split
    · exact h
    · split
      all_goals
        first
          | exact ⟨by simpa [CmdResult.world] using h.1,
              by simpa [CmdResult.world] using h.2.upsertAt _ _⟩
          | simpa [CmdResult.world] using h

theorem spawnGhost_preserves_IndexWF (c : SpawnTerrainGhostCommand) (w : World)
    (h : IndexWF w.geometry) : IndexWF (c.write w).world.geometry := by
  unfold SpawnTerrainGhostCommand.write
  split
  · exact h
  · exact construct_preserves_IndexWF c _ (removeExisting_preserves_IndexWF c w h)

theorem despawnGhost_preserves_IndexWF (c : DespawnGhostCommand) (w : World)
    (h : IndexWF w.geometry) : IndexWF (c.write w).world.geometry := by
  have h1 : AtMostOne (removeAt w.geometry.ghostIndex c.tile_pos) := h.2.removeAt _
  simp only [DespawnGhostCommand.write, MapGeometry.remove_ghost_terrain_fst]
  split
  · exact ⟨by simpa [CmdResult.world] using h.1, by simpa [CmdResult.world] using h1⟩
  · split
    · exact ⟨by simpa [CmdResult.world] using h.1, by simpa [CmdResult.world] using h1⟩
    · exact ⟨by simpa [CmdResult.world] using h.1, by simpa [CmdResult.world] using h1⟩

theorem applyTerraforming_preserves_IndexWF (c : ApplyTerraformingCommand) (w : World)
    (h : IndexWF w.geometry) : IndexWF (c.write w).world.geometry := by
  obtain ⟨t, a⟩ := c
  unfold ApplyTerraformingCommand.write
  cases a <;> simp only <;>
    (split
     · exact h
     · split
       · exact h
       · split <;>
           try split
         all_goals
           first
             | exact h
             | exact ⟨by simpa [CmdResult.world] using h.1,
                 by simpa [CmdResult.world] using h.2⟩)

theorem write_preserves_IndexWF (c : Cmd) (w : World)
    (h : IndexWF w.geometry) : IndexWF ((c.write w).world).geometry := by
  cases c with
  | spawnTerrain t hh id => exact spawnTerrain_preserves_IndexWF _ _ h
  | spawnGhost t id a => exact spawnGhost_preserves_IndexWF _ _ h
  | spawnPreview t id a => exact spawnGhost_preserves_IndexWF _ _ h
  | despawnGhost t => exact despawnGhost_preserves_IndexWF _ _ h
  | applyTerraforming t a => exact applyTerraforming_preserves_IndexWF _ _ h

theorem runSeq_preserves_IndexWF (cmds : List Cmd) (w : World)
    (h : IndexWF w.geometry) : IndexWF (runSeq cmds w).geometry := by
  induction cmds generalizing w with
  | nil => exact h
  | cons c cs ih =>
    have hc := write_preserves_IndexWF c w h
    unfold runSeq
    cases hw : c.write w with
    | ok w1 =>
      rw [hw] at hc
      exact ih w1 hc
    | panicked w1 =>
      rw [hw] at hc
      exact hc

/-! ## Lookup lemmas -/

theorem lookupAt_upsertAt_self {α : Type} (l : List (TilePos × α)) (t : TilePos)
    (v : α) : lookupAt (upsertAt l t v) t = some v := by
  simp [lookupAt, upsertAt]

theorem lookupAt_removeAt_self {α : Type} (l : List (TilePos × α)) (t : TilePos) :
    lookupAt (removeAt l t) t = none := by
  unfold lookupAt removeAt
  have hf : List.find? (fun p => p.1 == t) (l.filter (fun p => !(p.1 == t))) = none := by
    rw [List.find?_eq_none]
    intro x hx
    have hq := (List.mem_filter.mp hx).2
    simp only [Bool.not_eq_eq_eq_not, Bool.not_true] at hq
    simp [hq]
  rw [hf]
  rfl

theorem removeAt_of_lookupAt_none {α : Type} (l : List (TilePos × α)) (t : TilePos)
    (h : lookupAt l t = none) : removeAt l t = l := by
  unfold removeAt
  rw [List.filter_eq_self]
  intro a ha
  unfold lookupAt at h
  have hf : List.find? (fun p => p.1 == t) l = none := by
    cases hfind : List.find? (fun p => p.1 == t) l with
    | none => rfl
    | some x => rw [hfind] at h; simp at h
  rw [List.find?_eq_none] at hf
  have := hf a ha
  simpa using this

/-! ## Despawn and containment lemmas -/

theorem World.isDescendantOf_self (w : World) (a : Nat) :
    w.isDescendantOf w.fuel a a = true := by
  show w.isDescendantOf (w.entities.length + 1) a a = true
  unfold World.isDescendantOf
  simp

theorem World.contains_despawn_of_descendant (w : World) (a d : Nat)
    (hd : w.isDescendantOf w.fuel d a = true) :
    (w.despawn_recursive a).contains d = false := by
  unfold World.contains World.despawn_recursive
  simp only
  rw [List.any_eq_false]
  intro x hx
  have hq := (List.mem_filter.mp hx).2
  intro hid
  have : x.id = d := by simpa using hid
  rw [this] at hq
  rw [hd] at hq
  simp at hq

theorem World.isDescendantOf_congr (w w' : World) (hent : w.entities = w'.entities) :
    ∀ n d a, w.isDescendantOf n d a = w'.isDescendantOf n d a := by
  intro n
  induction n with
  | zero => intro d a; rfl
  | succ n ih =>
    intro d a
    unfold World.isDescendantOf
    have hfind : w.find d = w'.find d := by
      unfold World.find
      rw [hent]
    rw [hfind]
    cases w'.find d with
    | none => rfl
    | some r =>
      cases hp : r.parent with
      | none => simp [hp]
      | some p => simp [hp, ih]

/-- C1 (claim): for every tile coordinate and after any sequence of the five
commands, the Spatial Index registers at most one terrain entity and at most
one ghost entity for that tile. -/
theorem spatial_index_uniqueness (cmds : List Cmd) (w : World) (t : TilePos)
    (hw : IndexWF w.geometry) :
    countEntries (runSeq cmds w).geometry.terrainIndex t ≤ 1 ∧
      countEntries (runSeq cmds w).geometry.ghostIndex t ≤ 1 :=
  ⟨(runSeq_preserves_IndexWF cmds w hw).1 t, (runSeq_preserves_IndexWF cmds w hw).2 t⟩

/-- A small concrete world used by the witnesses: an empty 5-extent map with one
terrain type (id 7, scene handle 42). -/
def demoWorld : World :=
  { geometry := { extent := 5, terrainIndex := [], ghostIndex := [], heights := [] }
    terrainHandles :=
      { scenes := [(7, 42)], topper_mesh := 1, column_mesh := 2, column_material := 3 }
    ghostHandles := { ghostMaterial := 10, previewMaterial := 11 }
    nextId := 0
    entities := [] }

theorem demoWorld_IndexWF : IndexWF demoWorld.geometry :=
  ⟨fun t => by simp [demoWorld, countEntries], fun t => by simp [demoWorld, countEntries]⟩

/-- Witness for C1: a concrete queue (spawn terrain, then spawn a ghost on the
same tile) against the demo world keeps both index categories unique. -/
theorem spatial_index_uniqueness_witness :
    IndexWF demoWorld.geometry ∧
      (countEntries (runSeq [Cmd.spawnTerrain ⟨2, 3⟩ ⟨5⟩ 7,
          Cmd.spawnGhost ⟨2, 3⟩ 7 TerraformingAction.raiseAction] demoWorld).geometry.terrainIndex ⟨2, 3⟩ ≤ 1 ∧
        countEntries (runSeq [Cmd.spawnTerrain ⟨2, 3⟩ ⟨5⟩ 7,
          Cmd.spawnGhost ⟨2, 3⟩ 7 TerraformingAction.raiseAction] demoWorld).geometry.ghostIndex ⟨2, 3⟩ ≤ 1) :=
  ⟨demoWorld_IndexWF, spatial_index_uniqueness _ _ _ demoWorld_IndexWF⟩

/-- C9 (claim): Despawn Ghost removes the tile's ghost entry from the Spatial
Index and recursively despawns the ghost entity and every descendant of it; if
the tile had no ghost entry the command returns without effect and without
signaling failure (the world, hence its entity count, is unchanged).  The
hypothesis states that the indexed ghost entity, if any, is still live (which
every reachable world satisfies, since each command that despawns a ghost also
removes its index entry). -/
theorem despawn_ghost_spec (c : DespawnGhostCommand) (w : World)
    (hlive : ∀ g, w.geometry.get_ghost_terrain c.tile_pos = some g →
      w.contains g = true) :
    ∃ w2, c.write w = CmdResult.ok w2 ∧
      w2.geometry.get_ghost_terrain c.tile_pos = none ∧
      (∀ g, w.geometry.get_ghost_terrain c.tile_pos = some g →
        ∀ r ∈ w.entities, w.isDescendantOf w.fuel r.id g = true →
          w2.contains r.id = false) ∧
      (w.geometry.get_ghost_terrain c.tile_pos = none →
        w2 = w ∧ w2.entities.length = w.entities.length) := by
  cases hg : w.geometry.get_ghost_terrain c.tile_pos with
  | none =>
    refine ⟨w, ?_, ?_, ?_, ?_⟩
    · unfold DespawnGhostCommand.write
      simp only [MapGeometry.remove_ghost_terrain_fst]
      have hg' : lookupAt w.geometry.ghostIndex c.tile_pos = none := hg
      rw [hg']
      have hrm : removeAt w.geometry.ghostIndex c.tile_pos = w.geometry.ghostIndex :=
        removeAt_of_lookupAt_none _ _ hg'
      simp only [MapGeometry.remove_ghost_terrain]
      rw [hrm]
    · exact hg
    · intro g hgg
      exact absurd hgg (by simp)
    · exact fun _ => ⟨rfl, rfl⟩
  | some g =>
    have hg' : lookupAt w.geometry.ghostIndex c.tile_pos = some g := hg
    have hcont : w.contains g = true := hlive g hg
    refine ⟨({ w with geometry := (w.geometry.remove_ghost_terrain c.tile_pos).2 } : World).despawn_recursive g,
      ?_, ?_, ?_, ?_⟩
    · unfold DespawnGhostCommand.write
      simp only [MapGeometry.remove_ghost_terrain_fst]
      rw [hg']
      have hcont1 : ({ w with geometry := (w.geometry.remove_ghost_terrain c.tile_pos).2 } : World).contains g = true := hcont
      simp only [hcont1, if_true]
    · show lookupAt (removeAt w.geometry.ghostIndex c.tile_pos) c.tile_pos = none
      exact lookupAt_removeAt_self _ _
    · intro g2 hgg r hr hdesc
      have hge : g2 = g := (Option.some.inj hgg).symm
      subst hge
      set w1 : World := { w with geometry := (w.geometry.remove_ghost_terrain c.tile_pos).2 } with hw1
      have hent : w.entities = w1.entities := rfl
      have hdesc1 : w1.isDescendantOf w1.fuel r.id g2 = true := by
        have hfuel : w.fuel = w1.fuel := rfl
        rw [← World.isDescendantOf_congr w w1 hent, ← hfuel]
        exact hdesc
      exact World.contains_despawn_of_descendant w1 g2 r.id hdesc1
    · intro hnone
      exact absurd hnone (by simp)

/-- A concrete world with a live ghost entity (id 0) indexed at tile (2,3). -/
def demoGhostWorld : World :=
  { geometry :=
      { extent := 5, terrainIndex := [], ghostIndex := [(⟨2, 3⟩, 0)],
        heights := [(⟨2, 3⟩, ⟨5⟩)] }
    terrainHandles :=
      { scenes := [(7, 42)], topper_mesh := 1, column_mesh := 2, column_material := 3 }
    ghostHandles := { ghostMaterial := 10, previewMaterial := 11 }
    nextId := 1
    entities := [⟨0, none, { marker := some GhostKind.ghost, tile := some ⟨2, 3⟩ }⟩] }

/-- Witness for C9 at the concrete ghost world. -/
theorem despawn_ghost_spec_witness :
    (∀ g, demoGhostWorld.geometry.get_ghost_terrain ⟨2, 3⟩ = some g →
      demoGhostWorld.contains g = true) ∧
      (∃ w2, DespawnGhostCommand.write ⟨⟨2, 3⟩⟩ demoGhostWorld = CmdResult.ok w2 ∧
        w2.geometry.get_ghost_terrain ⟨2, 3⟩ = none ∧
        (∀ g, demoGhostWorld.geometry.get_ghost_terrain ⟨2, 3⟩ = some g →
          ∀ r ∈ demoGhostWorld.entities,
            demoGhostWorld.isDescendantOf demoGhostWorld.fuel r.id g = true →
              w2.contains r.id = false) ∧
        (demoGhostWorld.geometry.get_ghost_terrain ⟨2, 3⟩ = none →
          w2 = demoGhostWorld ∧
            w2.entities.length = demoGhostWorld.entities.length)) := by
  have hlive : ∀ g, demoGhostWorld.geometry.get_ghost_terrain ⟨2, 3⟩ = some g →
      demoGhostWorld.contains g = true := by
    intro g hgg
    have h0 : demoGhostWorld.geometry.get_ghost_terrain ⟨2, 3⟩ = some 0 := by decide
    rw [h0] at hgg
    cases hgg
    decide
  exact ⟨hlive, despawn_ghost_spec ⟨⟨2, 3⟩⟩ demoGhostWorld hlive⟩

/-! ## Plumbing lemmas for the ghost-spawn command -/

theorem SpawnTerrainGhostCommand.removeExisting_of_preview
    (c : SpawnTerrainGhostCommand) (w : World)
    (hk : c.ghost_kind = GhostKind.preview) : c.removeExisting w = w := by
  unfold SpawnTerrainGhostCommand.removeExisting
  split
  · rw [hk]
    simp
  · rfl

theorem SpawnTerrainGhostCommand.removeExisting_terrainHandles
    (c : SpawnTerrainGhostCommand) (w : World) :
    (c.removeExisting w).terrainHandles = w.terrainHandles := by
  unfold SpawnTerrainGhostCommand.removeExisting
  split
  · split <;> rfl
  · rfl

theorem SpawnTerrainGhostCommand.removeExisting_ghostHandles
    (c : SpawnTerrainGhostCommand) (w : World) :
    (c.removeExisting w).ghostHandles = w.ghostHandles := by
  unfold SpawnTerrainGhostCommand.removeExisting
  split
  · split <;> rfl
  · rfl

theorem SpawnTerrainGhostCommand.removeExisting_nextId
    (c : SpawnTerrainGhostCommand) (w : World) :
    (c.removeExisting w).nextId = w.nextId := by
  unfold SpawnTerrainGhostCommand.removeExisting
  split
  · split <;> rfl
  · rfl

theorem SpawnTerrainGhostCommand.removeExisting_heights
    (c : SpawnTerrainGhostCommand) (w : World) :
    (c.removeExisting w).geometry.heights = w.geometry.heights := by
  unfold SpawnTerrainGhostCommand.removeExisting
  split
  · split <;> rfl
  · rfl

theorem World.contains_spawn_of_contains (w : World) (cb : Components) (e : Nat)
    (he : w.contains e = true) : (w.spawn cb).1.contains e = true := by
  unfold World.contains at he ⊢
  simp [List.any_append, he]

/-- C8 (claim): spawning a Preview leaves the Spatial Index's ghost and terrain
entries unchanged for every tile (the preview is not registered), and no live
entity is despawned by it — this covers the aborted runs as well, via the world
carried by the result. -/
theorem preview_isolation (c : SpawnTerrainGhostCommand) (w : World)
    (hk : c.ghost_kind = GhostKind.preview) :
    (c.write w).world.geometry.terrainIndex = w.geometry.terrainIndex ∧
      (c.write w).world.geometry.ghostIndex = w.geometry.ghostIndex ∧
      ∀ e, w.contains e = true → (c.write w).world.contains e = true := by
  unfold SpawnTerrainGhostCommand.write
  split
  · exact ⟨rfl, rfl, fun e he => he⟩
  · rw [SpawnTerrainGhostCommand.removeExisting_of_preview c w hk]
    unfold SpawnTerrainGhostCommand.construct
    split
    · exact ⟨rfl, rfl, fun e he => he⟩
    · split
      · exact ⟨rfl, rfl, fun e he => he⟩
      · simp only [hk, CmdResult.world]
        exact ⟨rfl, rfl, fun e he => World.contains_spawn_of_contains w _ e he⟩

/-- Witness for C8: a concrete preview spawn against the ghost world. -/
theorem preview_isolation_witness :
    (SpawnTerrainGhostCommand.mk ⟨2, 3⟩ 7 TerraformingAction.raiseAction
        GhostKind.preview).ghost_kind = GhostKind.preview ∧
      ((SpawnTerrainGhostCommand.write
          ⟨⟨2, 3⟩, 7, TerraformingAction.raiseAction, GhostKind.preview⟩
          demoGhostWorld).world.geometry.terrainIndex =
            demoGhostWorld.geometry.terrainIndex ∧
        (SpawnTerrainGhostCommand.write
          ⟨⟨2, 3⟩, 7, TerraformingAction.raiseAction, GhostKind.preview⟩
          demoGhostWorld).world.geometry.ghostIndex =
            demoGhostWorld.geometry.ghostIndex ∧
        ∀ e, demoGhostWorld.contains e = true →
          (SpawnTerrainGhostCommand.write
            ⟨⟨2, 3⟩, 7, TerraformingAction.raiseAction, GhostKind.preview⟩
            demoGhostWorld).world.contains e = true) :=
  ⟨rfl, preview_isolation _ demoGhostWorld rfl⟩

/-- C10 (claim): an in-bounds Spawn Ghost/Preview with no recorded height for
the tile panics on the height lookup rather than silently returning (given the
terrain type's scene handle exists, which the command looks up first); the only
silent no-op return of the command is the out-of-bounds check — a completed
in-bounds run always changes the world. -/
theorem spawn_ghost_missing_height_panics (c : SpawnTerrainGhostCommand)
    (w : World) (s : AssetHandle) :
    (w.geometry.is_valid c.tile_pos = false → c.write w = CmdResult.ok w) ∧
      (w.geometry.is_valid c.tile_pos = true →
        w.terrainHandles.get_scene c.terrain_id = some s →
        w.geometry.get_height c.tile_pos = none →
        ∃ wp, c.write w = CmdResult.panicked wp) ∧
      (w.geometry.is_valid c.tile_pos = true →
        ∀ wr, c.write w = CmdResult.ok wr → wr ≠ w) := by
  refine ⟨?_, ?_, ?_⟩
  · intro hinvalid
    unfold SpawnTerrainGhostCommand.write
    rw [hinvalid]
    rfl
  · intro hvalid hscene hheight
    unfold SpawnTerrainGhostCommand.write
    rw [hvalid]
    simp only [Bool.not_true, Bool.false_eq_true, if_false]
    unfold SpawnTerrainGhostCommand.construct
    have hs1 : (c.removeExisting w).terrainHandles.get_scene c.terrain_id = some s := by
      rw [SpawnTerrainGhostCommand.removeExisting_terrainHandles]
      exact hscene
    have hh1 : (c.removeExisting w).geometry.get_height c.tile_pos = none := by
      show lookupAt (c.removeExisting w).geometry.heights c.tile_pos = none
      rw [SpawnTerrainGhostCommand.removeExisting_heights]
      exact hheight
    rw [hs1, hh1]
    exact ⟨_, rfl⟩
  · intro hvalid wr heq
    unfold SpawnTerrainGhostCommand.write at heq
    rw [hvalid] at heq
    simp only [Bool.not_true, Bool.false_eq_true, if_false] at heq
    unfold SpawnTerrainGhostCommand.construct at heq
    split at heq
    · exact absurd heq (by simp)
    · split at heq
      · exact absurd heq (by simp)
      · split at heq <;>
        · have hwr : wr.nextId = (c.removeExisting w).nextId + 1 := by
            have := CmdResult.ok.inj heq
            rw [← this]
            rfl
          rw [SpawnTerrainGhostCommand.removeExisting_nextId] at hwr
          intro hwrw
          rw [hwrw] at hwr
          omega

theorem MapGeometry.get_ghost_terrain_add_self (g : MapGeometry) (e : Nat)
    (t : TilePos) : (g.add_ghost_terrain e t).get_ghost_terrain t = some e :=
  lookupAt_upsertAt_self _ _ _

theorem SpawnTerrainGhostCommand.removeExisting_eq_of_live_ghost
    (c : SpawnTerrainGhostCommand) (w : World) (g : Nat)
    (hkind : c.ghost_kind = GhostKind.ghost)
    (hg : w.geometry.get_ghost_terrain c.tile_pos = some g)
    (halive : w.contains g = true) :
    c.removeExisting w =
      { w.despawn_recursive g with
          geometry :=
            ((w.despawn_recursive g).geometry.remove_ghost_terrain c.tile_pos).2 } := by
  unfold SpawnTerrainGhostCommand.removeExisting
  rw [hg]
  simp [halive, hkind]

theorem SpawnTerrainGhostCommand.construct_ghost_ok
    (c : SpawnTerrainGhostCommand) (w1 : World) (s : AssetHandle) (h0 : Height)
    (hkind : c.ghost_kind = GhostKind.ghost)
    (hscene : w1.terrainHandles.get_scene c.terrain_id = some s)
    (hheight : w1.geometry.get_height c.tile_pos = some h0) :
    c.construct w1 =
      CmdResult.ok
        { (w1.spawn (GhostTerrainBundle.new c.terraforming_action c.tile_pos s
            (w1.ghostHandles.get_material GhostKind.ghost)
            { c.tile_pos.into_world_pos w1.geometry with
                y := (projectedHeight c.terraforming_action h0).into_world_pos }
            c.terraforming_action.input_inventory
            c.terraforming_action.output_inventory)).1 with
            geometry :=
              (w1.spawn (GhostTerrainBundle.new c.terraforming_action c.tile_pos s
                (w1.ghostHandles.get_material GhostKind.ghost)
                { c.tile_pos.into_world_pos w1.geometry with
                    y := (projectedHeight c.terraforming_action h0).into_world_pos }
                c.terraforming_action.input_inventory
                c.terraforming_action.output_inventory)).1.geometry.add_ghost_terrain
                  w1.nextId c.tile_pos } := by
  unfold SpawnTerrainGhostCommand.construct
  rw [hscene, hheight]
  simp only [hkind]
  rfl

/-- C2 (claim): when Spawn Ghost (kind Ghost) runs at an in-bounds tile that
already has a live ghost entity, the old ghost is despawned recursively and
removed from the index before the new ghost is created: afterwards the index
maps the tile to the freshly spawned entity, that entity is live, the previous
ghost and all its descendants are gone from the world, and exactly one live
ghost-marked entity carries that tile.  The last two hypotheses are
reachable-world invariants: entity ids are below the allocator's next id, and
the only live ghost at the tile is the indexed one. -/
theorem ghost_replacement (c : SpawnTerrainGhostCommand) (w : World) (g : Nat)
    (s : AssetHandle) (h0 : Height)
    (hkind : c.ghost_kind = GhostKind.ghost)
    (hvalid : w.geometry.is_valid c.tile_pos = true)
    (hg : w.geometry.get_ghost_terrain c.tile_pos = some g)
    (halive : w.contains g = true)
    (hscene : w.terrainHandles.get_scene c.terrain_id = some s)
    (hheight : w.geometry.get_height c.tile_pos = some h0)
    (hids : ∀ r ∈ w.entities, r.id < w.nextId)
    (hghosts : ∀ r ∈ w.entities, r.comps.marker = some GhostKind.ghost →
      r.comps.tile = some c.tile_pos → r.id = g) :
    ∃ w2, c.write w = CmdResult.ok w2 ∧
      w2.geometry.get_ghost_terrain c.tile_pos = some w.nextId ∧
      w2.contains w.nextId = true ∧
      (∀ r ∈ w.entities, w.isDescendantOf w.fuel r.id g = true →
        w2.contains r.id = false) ∧
      (w2.entities.filter (fun r => r.comps.marker == some GhostKind.ghost &&
        r.comps.tile == some c.tile_pos)).map (fun r => r.id) = [w.nextId] := by
  have hw1 := SpawnTerrainGhostCommand.removeExisting_eq_of_live_ghost c w g hkind hg halive
  have hwrite : c.write w = c.construct (c.removeExisting w) := by
    unfold SpawnTerrainGhostCommand.write
    rw [hvalid]
    rfl
  have hs1 : (c.removeExisting w).terrainHandles.get_scene c.terrain_id = some s := by
    rw [SpawnTerrainGhostCommand.removeExisting_terrainHandles]
    exact hscene
  have hh1 : (c.removeExisting w).geometry.get_height c.tile_pos = some h0 := by
    show lookupAt (c.removeExisting w).geometry.heights c.tile_pos = some h0
    rw [SpawnTerrainGhostCommand.removeExisting_heights]
    exact hheight
  have hok := SpawnTerrainGhostCommand.construct_ghost_ok c (c.removeExisting w)
    s h0 hkind hs1 hh1
  rw [hwrite, hok]
  refine ⟨_, rfl, ?_, ?_, ?_, ?_⟩
  · show ((c.removeExisting w).geometry.add_ghost_terrain
        (c.removeExisting w).nextId c.tile_pos).get_ghost_terrain c.tile_pos =
      some w.nextId
    rw [MapGeometry.get_ghost_terrain_add_self,
      SpawnTerrainGhostCommand.removeExisting_nextId]
  · show ((c.removeExisting w).spawn _).1.contains w.nextId = true
    unfold World.contains
    rw [World.spawn_fst_entities, List.any_append]
    have : (c.removeExisting w).nextId = w.nextId :=
      SpawnTerrainGhostCommand.removeExisting_nextId c w
    simp [this]
  · intro r hr hdesc
    show ((c.removeExisting w).spawn _).1.contains r.id = false
    unfold World.contains
    rw [World.spawn_fst_entities, List.any_append]
    have h1 : (w.despawn_recursive g).contains r.id = false :=
      World.contains_despawn_of_descendant w g r.id hdesc
    have h2 : ((c.removeExisting w).entities.any (fun rr => rr.id == r.id)) = false := by
      rw [hw1]
      exact h1
    rw [h2]
    have h3 : r.id ≠ (c.removeExisting w).nextId := by
      rw [SpawnTerrainGhostCommand.removeExisting_nextId]
      exact Nat.ne_of_lt (hids r hr)
    simp [Ne.symm h3]
  · have hnil : ((c.removeExisting w).entities.filter
        (fun r => r.comps.marker == some GhostKind.ghost &&
          r.comps.tile == some c.tile_pos)) = [] := by
      rw [List.filter_eq_nil_iff]
      intro r' hr'
      rw [hw1] at hr'
      have hr'w : r' ∈ w.entities ∧
          (!(w.isDescendantOf w.fuel r'.id g)) = true := List.mem_filter.mp hr'
      intro hpred
      simp only [Bool.and_eq_true, beq_iff_eq] at hpred
      have hrg : r'.id = g := hghosts r' hr'w.1 hpred.1 hpred.2
      have hself : w.isDescendantOf w.fuel r'.id g = true := by
        rw [hrg]
        exact World.isDescendantOf_self w g
      rw [hself] at hr'w
      simpa using hr'w.2
    simp only [World.spawn_fst_entities, List.filter_append, hnil, List.nil_append]
    simp [GhostTerrainBundle.new, SpawnTerrainGhostCommand.removeExisting_nextId]

/-- Witness for C2: replacing the live ghost of the concrete ghost world. -/
theorem ghost_replacement_witness :
    ∃ w2, SpawnTerrainGhostCommand.write
        ⟨⟨2, 3⟩, 7, TerraformingAction.raiseAction, GhostKind.ghost⟩ demoGhostWorld =
        CmdResult.ok w2 ∧
      w2.geometry.get_ghost_terrain ⟨2, 3⟩ = some demoGhostWorld.nextId ∧
      w2.contains demoGhostWorld.nextId = true ∧
      (∀ r ∈ demoGhostWorld.entities,
        demoGhostWorld.isDescendantOf demoGhostWorld.fuel r.id 0 = true →
          w2.contains r.id = false) ∧
      (w2.entities.filter (fun r => r.comps.marker == some GhostKind.ghost &&
        r.comps.tile == some (⟨2, 3⟩ : TilePos))).map (fun r => r.id) =
        [demoGhostWorld.nextId] :=
  ghost_replacement ⟨⟨2, 3⟩, 7, TerraformingAction.raiseAction, GhostKind.ghost⟩
    demoGhostWorld 0 42 ⟨5⟩ rfl (by decide) (by decide) (by decide) (by decide)
    (by decide) (by decide) (by decide)

theorem SpawnTerrainGhostCommand.construct_preview_ok
    (c : SpawnTerrainGhostCommand) (w1 : World) (s : AssetHandle) (h0 : Height)
    (hkind : c.ghost_kind = GhostKind.preview)
    (hscene : w1.terrainHandles.get_scene c.terrain_id = some s)
    (hheight : w1.geometry.get_height c.tile_pos = some h0) :
    c.construct w1 =
      CmdResult.ok
        (w1.spawn (TerrainPreviewBundle.new c.tile_pos c.terraforming_action s
          (w1.ghostHandles.get_material GhostKind.preview)
          { c.tile_pos.into_world_pos w1.geometry with
              y := (projectedHeight c.terraforming_action h0).into_world_pos })).1 := by
  unfold SpawnTerrainGhostCommand.construct
  rw [hscene, hheight]
  simp only [hkind]

theorem TilePos.into_world_pos_congr_heights (t : TilePos) (g g' : MapGeometry)
    (h : g.heights = g'.heights) : t.into_world_pos g = t.into_world_pos g' := by
  unfold TilePos.into_world_pos MapGeometry.get_height
  unfold lookupAt
  rw [h]

/-- C7 (claim): for every in-bounds tile with a recorded height, Spawn
Ghost/Preview computes the previewed height as the current height plus one step
for Raise, minus one step for Lower, and unchanged for a type-Change, and
places the spawned entity at the tile's planar world position with the vertical
component overridden by the projected height converted to world units. -/
theorem ghost_preview_position (c : SpawnTerrainGhostCommand) (w : World)
    (s : AssetHandle) (h0 : Height)
    (hvalid : w.geometry.is_valid c.tile_pos = true)
    (hscene : w.terrainHandles.get_scene c.terrain_id = some s)
    (hheight : w.geometry.get_height c.tile_pos = some h0) :
    (∃ w2, c.write w = CmdResult.ok w2 ∧
      w2.entities.getLast?.map (fun r => (r.comps.tile, r.comps.transform)) =
        some (some c.tile_pos, some
          ⟨{ c.tile_pos.into_world_pos w.geometry with
              y := (projectedHeight c.terraforming_action h0).into_world_pos },
            ⟨1, 1, 1⟩⟩)) ∧
      projectedHeight TerraformingAction.raiseAction h0 = ⟨h0.val + 1⟩ ∧
      projectedHeight TerraformingAction.lowerAction h0 = ⟨h0.val - 1⟩ ∧
      ∀ id, projectedHeight (TerraformingAction.change id) h0 = h0 := by
  refine ⟨?_, rfl, rfl, fun _ => rfl⟩
  have hwrite : c.write w = c.construct (c.removeExisting w) := by
    unfold SpawnTerrainGhostCommand.write
    rw [hvalid]
    rfl
  have hs1 : (c.removeExisting w).terrainHandles.get_scene c.terrain_id = some s := by
    rw [SpawnTerrainGhostCommand.removeExisting_terrainHandles]
    exact hscene
  have hh1 : (c.removeExisting w).geometry.get_height c.tile_pos = some h0 := by
    show lookupAt (c.removeExisting w).geometry.heights c.tile_pos = some h0
    rw [SpawnTerrainGhostCommand.removeExisting_heights]
    exact hheight
  have hpos : c.tile_pos.into_world_pos (c.removeExisting w).geometry =
      c.tile_pos.into_world_pos w.geometry :=
    TilePos.into_world_pos_congr_heights _ _ _
      (SpawnTerrainGhostCommand.removeExisting_heights c w)
  cases hk : c.ghost_kind with
  | ghost =>
    rw [hwrite, SpawnTerrainGhostCommand.construct_ghost_ok c _ s h0 hk hs1 hh1]
    refine ⟨_, rfl, ?_⟩
    simp only [World.spawn_fst_entities, List.getLast?_concat]
    rw [hpos]
    rfl
  | preview =>
    rw [hwrite, SpawnTerrainGhostCommand.construct_preview_ok c _ s h0 hk hs1 hh1]
    refine ⟨_, rfl, ?_⟩
    simp only [World.spawn_fst_entities, List.getLast?_concat]
    rw [hpos]
    rfl

/-- Witness for C7: a concrete ghost spawn on the ghost world (height 5, raise)
previews height 6 at the tile's planar position. -/
theorem ghost_preview_position_witness :
    (∃ w2, SpawnTerrainGhostCommand.write
        ⟨⟨2, 3⟩, 7, TerraformingAction.lowerAction, GhostKind.ghost⟩ demoGhostWorld =
          CmdResult.ok w2 ∧
      w2.entities.getLast?.map (fun r => (r.comps.tile, r.comps.transform)) =
        some (some (⟨2, 3⟩ : TilePos), some
          ⟨{ TilePos.into_world_pos ⟨2, 3⟩ demoGhostWorld.geometry with
              y := (projectedHeight TerraformingAction.lowerAction ⟨5⟩).into_world_pos },
            ⟨1, 1, 1⟩⟩)) ∧
      projectedHeight TerraformingAction.raiseAction ⟨5⟩ = ⟨(5 : Int) + 1⟩ ∧
      projectedHeight TerraformingAction.lowerAction ⟨5⟩ = ⟨(5 : Int) - 1⟩ ∧
      ∀ id, projectedHeight (TerraformingAction.change id) ⟨5⟩ = ⟨5⟩ :=
  ghost_preview_position
    ⟨⟨2, 3⟩, 7, TerraformingAction.lowerAction, GhostKind.ghost⟩ demoGhostWorld
    42 ⟨5⟩ (by decide) (by decide) (by decide)

/-! ## Apply-terraforming lemmas -/

theorem find_map_update (l : List EntityRecord) (e : Nat) (r : EntityRecord)
    (f : Components → Components)
    (h : l.find? (fun rr => rr.id == e) = some r) :
    (l.map (fun rr => if rr.id == e then { rr with comps := f rr.comps } else rr)).find?
      (fun rr => rr.id == e) = some { r with comps := f r.comps } := by
  induction l with
  | nil => simp at h
  | cons a l ih =>
    by_cases ha : a.id = e
    · rw [List.find?_cons_of_pos _ (by simpa using ha)] at h
      cases h
      simp [List.find?_cons, ha]
    · rw [List.find?_cons_of_neg _ (by simpa using ha)] at h
      simp only [List.map_cons]
      rw [if_neg (by simpa using ha)]
      rw [List.find?_cons_of_neg _ (by simpa using ha)]
      exact ih h

theorem World.find_modifyComps (w : World) (e : Nat) (r : EntityRecord)
    (f : Components → Components) (h : w.find e = some r) :
    (w.modifyComps e f).find e = some { r with comps := f r.comps } :=
  find_map_update w.entities e r f h

theorem apply_raise_ok (t : TilePos) (w : World) (e : Nat) (r : EntityRecord)
    (tid0 : TerrainId) (z0 : Zoning) (h0 : Height) (s0 : AssetHandle)
    (hterr : w.geometry.get_terrain t = some e)
    (hfind : w.find e = some r)
    (hid : r.comps.terrainId = some tid0) (hz : r.comps.zoning = some z0)
    (hh : r.comps.height = some h0) (hs : r.comps.scene = some s0) :
    ApplyTerraformingCommand.write ⟨t, TerraformingAction.raiseAction⟩ w =
      CmdResult.ok
        (({ w.modifyComps e (fun cs => { cs with height := some h0.raise }) with
            geometry := (w.modifyComps e
              (fun cs => { cs with height := some h0.raise })).geometry.update_height
                t h0.raise }).modifyComps e
          (fun cs => { cs with zoning := some Zoning.clear })) := by
  simp only [ApplyTerraformingCommand.write, hterr, hfind, hid, hz, hh, hs]

theorem apply_lower_ok (t : TilePos) (w : World) (e : Nat) (r : EntityRecord)
    (tid0 : TerrainId) (z0 : Zoning) (h0 : Height) (s0 : AssetHandle)
    (hterr : w.geometry.get_terrain t = some e)
    (hfind : w.find e = some r)
    (hid : r.comps.terrainId = some tid0) (hz : r.comps.zoning = some z0)
    (hh : r.comps.height = some h0) (hs : r.comps.scene = some s0) :
    ApplyTerraformingCommand.write ⟨t, TerraformingAction.lowerAction⟩ w =
      CmdResult.ok
        (({ w.modifyComps e (fun cs => { cs with height := some h0.lower }) with
            geometry := (w.modifyComps e
              (fun cs => { cs with height := some h0.lower })).geometry.update_height
                t h0.lower }).modifyComps e
          (fun cs => { cs with zoning := some Zoning.clear })) := by
  simp only [ApplyTerraformingCommand.write, hterr, hfind, hid, hz, hh, hs]

theorem apply_change_ok (t : TilePos) (w : World) (e : Nat) (r : EntityRecord)
    (tid0 : TerrainId) (z0 : Zoning) (h0 : Height) (s0 : AssetHandle)
    (id : TerrainId) (snew : AssetHandle)
    (hterr : w.geometry.get_terrain t = some e)
    (hfind : w.find e = some r)
    (hid : r.comps.terrainId = some tid0) (hz : r.comps.zoning = some z0)
    (hh : r.comps.height = some h0) (hs : r.comps.scene = some s0)
    (hsn : w.terrainHandles.get_scene id = some snew) :
    ApplyTerraformingCommand.write ⟨t, TerraformingAction.change id⟩ w =
      CmdResult.ok
        (({ (w.modifyComps e (fun cs => { cs with terrainId := some id })).modifyComps e
              (fun cs => { cs with scene := some snew }) with
            geometry := ((w.modifyComps e
              (fun cs => { cs with terrainId := some id })).modifyComps e
                (fun cs => { cs with scene := some snew })).geometry.update_height
                  t h0 }).modifyComps e
          (fun cs => { cs with zoning := some Zoning.clear })) := by
  simp only [ApplyTerraformingCommand.write, hterr, hfind, hid, hz, hh, hs,
    World.modifyComps_terrainHandles, hsn]

/-- C4 (claim): for every tile that has a terrain entity (with the queried
components present), Apply Terraforming mutates the entity's height (Raise
increments, Lower decrements) or, for Change, replaces its terrain-type id and
scene handle, writes the resulting entity height back into the Spatial Index so
the index height matches the entity height, and resets the zoning marker. -/
theorem apply_terraforming_spec (c : ApplyTerraformingCommand) (w : World)
    (e : Nat) (r : EntityRecord)
    (tid0 : TerrainId) (z0 : Zoning) (h0 : Height) (s0 : AssetHandle)
    (hterr : w.geometry.get_terrain c.tile_pos = some e)
    (hfind : w.find e = some r)
    (hid : r.comps.terrainId = some tid0) (hz : r.comps.zoning = some z0)
    (hh : r.comps.height = some h0) (hs : r.comps.scene = some s0)
    (hchange : ∀ id, c.terraforming_action = TerraformingAction.change id →
      ∃ snew, w.terrainHandles.get_scene id = some snew) :
    ∃ w2, c.write w = CmdResult.ok w2 ∧
      ∃ r2, w2.find e = some r2 ∧
        r2.comps.height = some (match c.terraforming_action with
          | TerraformingAction.raiseAction => Height.mk (h0.val + 1)
          | TerraformingAction.lowerAction => Height.mk (h0.val - 1)
          | TerraformingAction.change _ => h0) ∧
        r2.comps.terrainId = some (match c.terraforming_action with
          | TerraformingAction.change id => id
          | _ => tid0) ∧
        (∀ id, c.terraforming_action = TerraformingAction.change id →
          r2.comps.scene = w.terrainHandles.get_scene id) ∧
        r2.comps.zoning = some Zoning.clear ∧
        w2.geometry.get_height c.tile_pos = r2.comps.height := by
  obtain ⟨t, a⟩ := c
  cases a with
  | raiseAction =>
    rw [apply_raise_ok t w e r tid0 z0 h0 s0 hterr hfind hid hz hh hs]
    refine ⟨_, rfl, ?_⟩
    have h1 := World.find_modifyComps w e r
      (fun cs => { cs with height := some h0.raise }) hfind
    have h2 := World.find_modifyComps
      ({ w.modifyComps e (fun cs => { cs with height := some h0.raise }) with
          geometry := (w.modifyComps e
            (fun cs => { cs with height := some h0.raise })).geometry.update_height
              t h0.raise } : World)
      e { r with comps := { r.comps with height := some h0.raise } }
      (fun cs => { cs with zoning := some Zoning.clear }) h1
    refine ⟨_, h2, rfl, hid, fun id hc => absurd hc (fun h => nomatch h), rfl, ?_⟩
    show lookupAt (upsertAt _ t h0.raise) t = _
    rw [lookupAt_upsertAt_self]
  | lowerAction =>
    rw [apply_lower_ok t w e r tid0 z0 h0 s0 hterr hfind hid hz hh hs]
    refine ⟨_, rfl, ?_⟩
    have h1 := World.find_modifyComps w e r
      (fun cs => { cs with height := some h0.lower }) hfind
    have h2 := World.find_modifyComps
      ({ w.modifyComps e (fun cs => { cs with height := some h0.lower }) with
          geometry := (w.modifyComps e
            (fun cs => { cs with height := some h0.lower })).geometry.update_height
              t h0.lower } : World)
      e { r with comps := { r.comps with height := some h0.lower } }
      (fun cs => { cs with zoning := some Zoning.clear }) h1
    refine ⟨_, h2, rfl, hid, fun id hc => absurd hc (fun h => nomatch h), rfl, ?_⟩
    show lookupAt (upsertAt _ t h0.lower) t = _
    rw [lookupAt_upsertAt_self]
  | change id =>
    obtain ⟨snew, hsn⟩ := hchange id rfl
    rw [apply_change_ok t w e r tid0 z0 h0 s0 id snew hterr hfind hid hz hh hs hsn]
    refine ⟨_, rfl, ?_⟩
    have h1 := World.find_modifyComps w e r
      (fun cs => { cs with terrainId := some id }) hfind
    have h2 := World.find_modifyComps
      (w.modifyComps e (fun cs => { cs with terrainId := some id }))
      e { r with comps := { r.comps with terrainId := some id } }
      (fun cs => { cs with scene := some snew }) h1
    have h3 := World.find_modifyComps
      ({ (w.modifyComps e (fun cs => { cs with terrainId := some id })).modifyComps e
            (fun cs => { cs with scene := some snew }) with
          geometry := ((w.modifyComps e
            (fun cs => { cs with terrainId := some id })).modifyComps e
              (fun cs => { cs with scene := some snew })).geometry.update_height
                t h0 } : World)
      e { r with comps :=
            { r.comps with terrainId := some id, scene := some snew } }
      (fun cs => { cs with zoning := some Zoning.clear }) h2
    refine ⟨_, h3, hh, rfl, ?_, rfl, ?_⟩
    · intro id2 hc
      cases hc
      rw [hsn]
    · show lookupAt (upsertAt _ t h0) t = _
      rw [lookupAt_upsertAt_self]
      exact hh.symm

/-- A concrete world with a terrain entity (id 0) at tile (2,3): type 7,
height 5, scene 42, zoning marked pending. -/
def demoTerrainWorld : World :=
  { geometry :=
      { extent := 5, terrainIndex := [(⟨2, 3⟩, 0)], ghostIndex := [],
        heights := [(⟨2, 3⟩, ⟨5⟩)] }
    terrainHandles :=
      { scenes := [(7, 42), (8, 43)], topper_mesh := 1, column_mesh := 2,
        column_material := 3 }
    ghostHandles := { ghostMaterial := 10, previewMaterial := 11 }
    nextId := 1
    entities := [⟨0, none,
      { tile := some ⟨2, 3⟩, terrainId := some 7, height := some ⟨5⟩,
        scene := some 42,
        zoning := some (Zoning.marked TerraformingAction.raiseAction) }⟩] }

/-- Witness for C4: raising the concrete terrain tile. -/
theorem apply_terraforming_spec_witness :
    ∃ w2, ApplyTerraformingCommand.write ⟨⟨2, 3⟩, TerraformingAction.raiseAction⟩
        demoTerrainWorld = CmdResult.ok w2 ∧
      ∃ r2, w2.find 0 = some r2 ∧
        r2.comps.height = some (Height.mk ((5 : Int) + 1)) ∧
        r2.comps.terrainId = some 7 ∧
        (∀ id, TerraformingAction.raiseAction = TerraformingAction.change id →
          r2.comps.scene = demoTerrainWorld.terrainHandles.get_scene id) ∧
        r2.comps.zoning = some Zoning.clear ∧
        w2.geometry.get_height ⟨2, 3⟩ = r2.comps.height :=
  apply_terraforming_spec ⟨⟨2, 3⟩, TerraformingAction.raiseAction⟩ demoTerrainWorld
    0 ⟨0, none,
      { tile := some ⟨2, 3⟩, terrainId := some 7, height := some ⟨5⟩,
        scene := some 42,
        zoning := some (Zoning.marked TerraformingAction.raiseAction) }⟩
    7 (Zoning.marked TerraformingAction.raiseAction) ⟨5⟩ 42
    (by decide) rfl rfl rfl rfl rfl (fun id hc => absurd hc (fun h => nomatch h))

/-- C5 (claim): for every tile with a terrain entity and every starting height,
Raise followed by Lower restores the original committed height exactly in both
the entity and the Spatial Index (no drift), and a type-Change leaves the
height unchanged in both. -/
theorem terraforming_no_drift (t : TilePos) (w : World) (e : Nat)
    (r : EntityRecord)
    (tid0 : TerrainId) (z0 : Zoning) (h0 : Height) (s0 : AssetHandle)
    (hterr : w.geometry.get_terrain t = some e)
    (hfind : w.find e = some r)
    (hid : r.comps.terrainId = some tid0) (hz : r.comps.zoning = some z0)
    (hh : r.comps.height = some h0) (hs : r.comps.scene = some s0) :
    (∃ w1 w2,
      ApplyTerraformingCommand.write ⟨t, TerraformingAction.raiseAction⟩ w =
        CmdResult.ok w1 ∧
      ApplyTerraformingCommand.write ⟨t, TerraformingAction.lowerAction⟩ w1 =
        CmdResult.ok w2 ∧
      (w2.find e).map (fun r2 => r2.comps.height) = some (some h0) ∧
      w2.geometry.get_height t = some h0) ∧
    (∀ id snew, w.terrainHandles.get_scene id = some snew →
      ∃ w3, ApplyTerraformingCommand.write ⟨t, TerraformingAction.change id⟩ w =
          CmdResult.ok w3 ∧
        (w3.find e).map (fun r2 => r2.comps.height) = some (some h0) ∧
        w3.geometry.get_height t = some h0) := by
  have hcancel : h0.raise.lower = h0 := by
    show Height.mk (h0.val + 1 - 1) = h0
    rw [Int.add_sub_cancel]
  constructor
  · rw [apply_raise_ok t w e r tid0 z0 h0 s0 hterr hfind hid hz hh hs]
    have h1 := World.find_modifyComps w e r
      (fun cs => { cs with height := some h0.raise }) hfind
    have h2 := World.find_modifyComps
      ({ w.modifyComps e (fun cs => { cs with height := some h0.raise }) with
          geometry := (w.modifyComps e
            (fun cs => { cs with height := some h0.raise })).geometry.update_height
              t h0.raise } : World)
      e { r with comps := { r.comps with height := some h0.raise } }
      (fun cs => { cs with zoning := some Zoning.clear }) h1
    set w1 : World :=
      ({ w.modifyComps e (fun cs => { cs with height := some h0.raise }) with
          geometry := (w.modifyComps e
            (fun cs => { cs with height := some h0.raise })).geometry.update_height
              t h0.raise } : World).modifyComps e
        (fun cs => { cs with zoning := some Zoning.clear }) with hw1
    have hterr1 : w1.geometry.get_terrain t = some e := hterr
    have hlow := apply_lower_ok t w1 e
      { r with comps :=
          { r.comps with height := some h0.raise, zoning := some Zoning.clear } }
      tid0 Zoning.clear h0.raise s0 hterr1 h2 hid rfl rfl hs
    refine ⟨_, _, rfl, hlow, ?_, ?_⟩
    · have h3 := World.find_modifyComps w1 e
        { r with comps :=
            { r.comps with height := some h0.raise, zoning := some Zoning.clear } }
        (fun cs => { cs with height := some h0.raise.lower }) h2
      have h3w : ({ w1.modifyComps e
          (fun cs => { cs with height := some h0.raise.lower }) with
            geometry := (w1.modifyComps e
              (fun cs => { cs with height := some h0.raise.lower })).geometry.update_height
                t h0.raise.lower } : World).find e =
          some { r with comps :=
            { r.comps with height := some h0.raise.lower, zoning := some Zoning.clear } } := h3
      have h4 := World.find_modifyComps _ e
        { r with comps :=
            { r.comps with height := some h0.raise.lower, zoning := some Zoning.clear } }
        (fun cs => { cs with zoning := some Zoning.clear }) h3w
      rw [h4]
      simp [hcancel]
    · show lookupAt (upsertAt _ t h0.raise.lower) t = _
      rw [lookupAt_upsertAt_self, hcancel]
  · intro id snew hsn
    rw [apply_change_ok t w e r tid0 z0 h0 s0 id snew hterr hfind hid hz hh hs hsn]
    have h1 := World.find_modifyComps w e r
      (fun cs => { cs with terrainId := some id }) hfind
    have h2 := World.find_modifyComps
      (w.modifyComps e (fun cs => { cs with terrainId := some id }))
      e { r with comps := { r.comps with terrainId := some id } }
      (fun cs => { cs with scene := some snew }) h1
    have h3 := World.find_modifyComps
      ({ (w.modifyComps e (fun cs => { cs with terrainId := some id })).modifyComps e
            (fun cs => { cs with scene := some snew }) with
          geometry := ((w.modifyComps e
            (fun cs => { cs with terrainId := some id })).modifyComps e
              (fun cs => { cs with scene := some snew })).geometry.update_height
                t h0 } : World)
      e { r with comps :=
            { r.comps with terrainId := some id, scene := some snew } }
      (fun cs => { cs with zoning := some Zoning.clear }) h2
    refine ⟨_, rfl, ?_, ?_⟩
    · rw [h3]
      simpa using hh
    · show lookupAt (upsertAt _ t h0) t = some h0
      rw [lookupAt_upsertAt_self]

/-- Witness for C5: raise-then-lower on the concrete terrain world restores
height 5 exactly, and a change to type 8 keeps height 5. -/
theorem terraforming_no_drift_witness :
    (∃ w1 w2,
      ApplyTerraformingCommand.write ⟨⟨2, 3⟩, TerraformingAction.raiseAction⟩
        demoTerrainWorld = CmdResult.ok w1 ∧
      ApplyTerraformingCommand.write ⟨⟨2, 3⟩, TerraformingAction.lowerAction⟩ w1 =
        CmdResult.ok w2 ∧
      (w2.find 0).map (fun r2 => r2.comps.height) = some (some ⟨5⟩) ∧
      w2.geometry.get_height ⟨2, 3⟩ = some ⟨5⟩) ∧
    (∀ id snew, demoTerrainWorld.terrainHandles.get_scene id = some snew →
      ∃ w3, ApplyTerraformingCommand.write ⟨⟨2, 3⟩, TerraformingAction.change id⟩
          demoTerrainWorld = CmdResult.ok w3 ∧
        (w3.find 0).map (fun r2 => r2.comps.height) = some (some ⟨5⟩) ∧
        w3.geometry.get_height ⟨2, 3⟩ = some ⟨5⟩) :=
  terraforming_no_drift ⟨2, 3⟩ demoTerrainWorld 0
    ⟨0, none,
      { tile := some ⟨2, 3⟩, terrainId := some 7, height := some ⟨5⟩,
        scene := some 42,
        zoning := some (Zoning.marked TerraformingAction.raiseAction) }⟩
    7 (Zoning.marked TerraformingAction.raiseAction) ⟨5⟩ 42
    (by decide) rfl rfl rfl rfl rfl

/-- A concrete world like the ghost world, but whose terrain type 7 has no
scene handle registered. -/
def demoMissingSceneWorld : World :=
  { geometry :=
      { extent := 5, terrainIndex := [], ghostIndex := [(⟨2, 3⟩, 0)],
        heights := [(⟨2, 3⟩, ⟨5⟩)] }
    terrainHandles :=
      { scenes := [], topper_mesh := 1, column_mesh := 2, column_material := 3 }
    ghostHandles := { ghostMaterial := 10, previewMaterial := 11 }
    nextId := 1
    entities := [⟨0, none, { marker := some GhostKind.ghost, tile := some ⟨2, 3⟩ }⟩] }

/-- C3 counterexample: Spawn Ghost at a tile with a live ghost but a missing
scene handle aborts (panics on the handle lookup), yet the world at the abort
is NOT the world before the command — the old ghost was already despawned and
removed from the index.  This refutes the claim that every precondition-violating
command leaves the world exactly as it was. -/
theorem abort_not_clean_counterexample :
    (SpawnTerrainGhostCommand.write
        ⟨⟨2, 3⟩, 7, TerraformingAction.raiseAction, GhostKind.ghost⟩
        demoMissingSceneWorld).isOk = false ∧
      (SpawnTerrainGhostCommand.write
        ⟨⟨2, 3⟩, 7, TerraformingAction.raiseAction, GhostKind.ghost⟩
        demoMissingSceneWorld).world ≠ demoMissingSceneWorld := by
  constructor
  · rfl
  · decide

/-- C3 amended: Apply Terraforming on a tile with no terrain entity aborts with
the world exactly as before the command, and Spawn Terrain's visual-handle
lookup aborts before any mutation; the remaining visual-handle aborts (Spawn
Ghost after a replacement, Apply Terraforming Change after the terrain-id
mutation) are the ones the counterexample shows are not clean. -/
theorem abort_world_state (ca : ApplyTerraformingCommand)
    (cs : SpawnTerrainCommand) (w : World)
    (ha : w.geometry.get_terrain ca.tile_pos = none)
    (hsc : w.terrainHandles.get_scene cs.terrain_id = none) :
    ca.write w = CmdResult.panicked w ∧ cs.write w = CmdResult.panicked w := by
  constructor
  · simp only [ApplyTerraformingCommand.write, ha]
  · simp only [SpawnTerrainCommand.write, hsc]

/-- Witness for the amended C3: both clean aborts at a concrete world. -/
theorem abort_world_state_witness :
    ApplyTerraformingCommand.write ⟨⟨2, 3⟩, TerraformingAction.raiseAction⟩
        demoMissingSceneWorld = CmdResult.panicked demoMissingSceneWorld ∧
      SpawnTerrainCommand.write ⟨⟨2, 3⟩, ⟨5⟩, 7⟩ demoMissingSceneWorld =
        CmdResult.panicked demoMissingSceneWorld :=
  abort_world_state ⟨⟨2, 3⟩, TerraformingAction.raiseAction⟩ ⟨⟨2, 3⟩, ⟨5⟩, 7⟩
    demoMissingSceneWorld (by decide) (by decide)

/-- C6 counterexample: immediately after Spawn Terrain on a fresh world, the
terrain entity has exactly TWO attached children (column, overlay), not three:
the visual scene root is only carried as a handle on the root entity and is
attached later by the external scene-spawning system, not by this command. -/
theorem terrain_children_counterexample :
    (SpawnTerrainCommand.write ⟨⟨2, 3⟩, ⟨5⟩, 7⟩ demoWorld).isOk = true ∧
      (SpawnTerrainCommand.write ⟨⟨2, 3⟩, ⟨5⟩, 7⟩ demoWorld).world.childrenOf 0 =
        [1, 2] ∧
      ¬ ((SpawnTerrainCommand.write
        ⟨⟨2, 3⟩, ⟨5⟩, 7⟩ demoWorld).world.childrenOf 0).length = 3 := by
  refine ⟨rfl, ?_, ?_⟩
  · decide
  · decide

theorem map_update_parent_of_ne (l : List EntityRecord) (p c : Nat)
    (h : ∀ r ∈ l, r.id ≠ c) :
    l.map (fun r => if r.id == c then { r with parent := some p } else r) = l := by
  induction l with
  | nil => rfl
  | cons a l ih =>
    simp only [List.map_cons]
    rw [if_neg (by simpa using h a (List.Mem.head _))]
    rw [ih (fun r hr => h r (List.Mem.tail _ hr))]

/-- The column bundle built inside `SpawnTerrainCommand::write`. -/
def columnComps (th : TerrainHandles) : Components :=
  { mesh := some th.column_mesh
    material := some th.column_material
    visibility := some Visibility.inherited
    transform := some Transform.default }

/-- The overlay bundle built inside `SpawnTerrainCommand::write`: hidden and
uniformly oversized. -/
def overlayComps (th : TerrainHandles) : Components :=
  { mesh := some th.topper_mesh
    visibility := some Visibility.hidden
    transform := some (Transform.from_scale
      ⟨OVERLAY_OVERSIZE_SCALE, OVERLAY_OVERSIZE_SCALE, OVERLAY_OVERSIZE_SCALE⟩) }

/-- Characterization of a completed `SpawnTerrainCommand::write`: the index gets
the height and the terrain entity, and exactly three entities are appended —
the terrain root (carrying the scene handle) and its two children, the column
and the overlay, in that order. -/
theorem SpawnTerrainCommand.write_ok (c : SpawnTerrainCommand) (w : World)
    (s : AssetHandle)
    (hscene : w.terrainHandles.get_scene c.terrain_id = some s)
    (hids : ∀ r ∈ w.entities, r.id < w.nextId) :
    c.write w = CmdResult.ok
      { geometry := (w.geometry.update_height c.tile_pos c.height).add_terrain
          c.tile_pos w.nextId
        terrainHandles := w.terrainHandles
        ghostHandles := w.ghostHandles
        nextId := w.nextId + 3
        entities := w.entities ++
          [⟨w.nextId, none, TerrainBundle.new c.terrain_id c.tile_pos s
              w.terrainHandles.topper_mesh
              (w.geometry.update_height c.tile_pos c.height)⟩,
           ⟨w.nextId + 1, some w.nextId, columnComps w.terrainHandles⟩,
           ⟨w.nextId + 2, some w.nextId, overlayComps w.terrainHandles⟩] } := by
  obtain ⟨g, th, gh, n, ents⟩ := w
  simp only [SpawnTerrainCommand.write] at *
  rw [hscene]
  refine congrArg CmdResult.ok ?_
  simp only [World.spawn, World.add_child, columnComps, overlayComps,
    World.mk.injEq, true_and]
  have hne1 : ∀ r ∈ ents, r.id ≠ n + 1 := fun r hr => by
    have := hids r hr
    omega
  have hne2 : ∀ r ∈ ents, r.id ≠ n + 2 := fun r hr => by
    have := hids r hr
    omega
  have hb : n + 1 + 1 = n + 2 := rfl
  have b1 : ((n : Nat) == n + 1) = false := by
    simp only [beq_eq_false_iff_ne, ne_eq]
    omega
  have b2 : ((n : Nat) == n + 2) = false := by
    simp only [beq_eq_false_iff_ne, ne_eq]
    omega
  have b3 : ((n + 1 : Nat) == n + 2) = false := by
    simp only [beq_eq_false_iff_ne, ne_eq]
    omega
  simp only [List.map_append, hb]
  rw [map_update_parent_of_ne _ _ _ hne1]
  rw [map_update_parent_of_ne _ _ _ hne2]
  simp [b1, b2, b3]

/-- C6 amended: every terrain entity created by Spawn Terrain has, immediately
after the command, exactly two children attached by the command in fixed
positional order — child 0 the decorative column (column mesh and material),
child 1 the overlay (spawned hidden and uniformly scaled by a constant slightly
greater than 1.0) — while the visual scene root is carried as a scene handle on
the root entity, to be attached as a further child by the external
scene-spawning system, outside this command.  The last two hypotheses are
allocator sanity conditions every reachable world satisfies. -/
theorem terrain_children_spec (c : SpawnTerrainCommand) (w : World)
    (s : AssetHandle)
    (hscene : w.terrainHandles.get_scene c.terrain_id = some s)
    (hids : ∀ r ∈ w.entities, r.id < w.nextId)
    (hparent : ∀ r ∈ w.entities, r.parent ≠ some w.nextId) :
    ∃ w2, c.write w = CmdResult.ok w2 ∧
      w2.childrenOf w.nextId = [w.nextId + 1, w.nextId + 2] ∧
      (∃ rc, w2.find (w.nextId + 1) = some rc ∧
        rc.comps.mesh = some w.terrainHandles.column_mesh ∧
        rc.comps.material = some w.terrainHandles.column_material) ∧
      (∃ ro, w2.find (w.nextId + 2) = some ro ∧
        ro.comps.visibility = some Visibility.hidden ∧
        ro.comps.transform = some (Transform.from_scale
          ⟨OVERLAY_OVERSIZE_SCALE, OVERLAY_OVERSIZE_SCALE, OVERLAY_OVERSIZE_SCALE⟩)) ∧
      (∃ rt, w2.find w.nextId = some rt ∧ rt.comps.scene = some s) ∧
      1 < OVERLAY_OVERSIZE_SCALE ∧ OVERLAY_OVERSIZE_SCALE < 101 / 100 := by
  rw [SpawnTerrainCommand.write_ok c w s hscene hids]
  have hne0 : ∀ r ∈ w.entities, r.id ≠ w.nextId := fun r hr => by
    have := hids r hr
    omega
  have hne1 : ∀ r ∈ w.entities, r.id ≠ w.nextId + 1 := fun r hr => by
    have := hids r hr
    omega
  have hne2 : ∀ r ∈ w.entities, r.id ≠ w.nextId + 2 := fun r hr => by
    have := hids r hr
    omega
  refine ⟨_, rfl, ?_, ?_, ?_, ?_, ?_, ?_⟩
  · unfold World.childrenOf
    rw [List.filter_append]
    have hnil : (w.entities.filter (fun r => r.parent == some w.nextId)) = [] := by
      rw [List.filter_eq_nil_iff]
      intro r hr
      simpa using hparent r hr
    rw [hnil]
    simp [TerrainBundle.new, columnComps, overlayComps]
  · refine ⟨⟨w.nextId + 1, some w.nextId, columnComps w.terrainHandles⟩, ?_, rfl, rfl⟩
    unfold World.find
    rw [List.find?_append]
    have hnone : (w.entities.find? (fun r => r.id == w.nextId + 1)) = none := by
      rw [List.find?_eq_none]
      intro r hr
      simpa using hne1 r hr
    rw [hnone]
    simp [columnComps]
  · refine ⟨⟨w.nextId + 2, some w.nextId, overlayComps w.terrainHandles⟩, ?_, rfl, rfl⟩
    unfold World.find
    rw [List.find?_append]
    have hnone : (w.entities.find? (fun r => r.id == w.nextId + 2)) = none := by
      rw [List.find?_eq_none]
      intro r hr
      simpa using hne2 r hr
    rw [hnone]
    simp [overlayComps]
  · refine ⟨⟨w.nextId, none, TerrainBundle.new c.terrain_id c.tile_pos s
        w.terrainHandles.topper_mesh
        (w.geometry.update_height c.tile_pos c.height)⟩, ?_, rfl⟩
    unfold World.find
    rw [List.find?_append]
    have hnone : (w.entities.find? (fun r => r.id == w.nextId)) = none := by
      rw [List.find?_eq_none]
      intro r hr
      simpa using hne0 r hr
    rw [hnone]
    simp
  · unfold OVERLAY_OVERSIZE_SCALE
    norm_num
  · unfold OVERLAY_OVERSIZE_SCALE
    norm_num

/-- Witness for the amended C6: the concrete spawn on the demo world. -/
theorem terrain_children_spec_witness :
    ∃ w2, SpawnTerrainCommand.write ⟨⟨2, 3⟩, ⟨5⟩, 7⟩ demoWorld = CmdResult.ok w2 ∧
      w2.childrenOf demoWorld.nextId = [demoWorld.nextId + 1, demoWorld.nextId + 2] ∧
      (∃ rc, w2.find (demoWorld.nextId + 1) = some rc ∧
        rc.comps.mesh = some demoWorld.terrainHandles.column_mesh ∧
        rc.comps.material = some demoWorld.terrainHandles.column_material) ∧
      (∃ ro, w2.find (demoWorld.nextId + 2) = some ro ∧
        ro.comps.visibility = some Visibility.hidden ∧
        ro.comps.transform = some (Transform.from_scale
          ⟨OVERLAY_OVERSIZE_SCALE, OVERLAY_OVERSIZE_SCALE, OVERLAY_OVERSIZE_SCALE⟩)) ∧
      (∃ rt, w2.find demoWorld.nextId = some rt ∧ rt.comps.scene = some 42) ∧
      1 < OVERLAY_OVERSIZE_SCALE ∧ OVERLAY_OVERSIZE_SCALE < 101 / 100 :=
  terrain_children_spec ⟨⟨2, 3⟩, ⟨5⟩, 7⟩ demoWorld 42 (by decide)
    (by intro r hr; cases hr) (by intro r hr; cases hr)

/-- A concrete world whose tile (2,3) is in bounds but has no recorded height. -/
def demoNoHeightWorld : World :=
  { geometry := { extent := 5, terrainIndex := [], ghostIndex := [], heights := [] }
    terrainHandles :=
      { scenes := [(7, 42)], topper_mesh := 1, column_mesh := 2, column_material := 3 }
    ghostHandles := { ghostMaterial := 10, previewMaterial := 11 }
    nextId := 0
    entities := [] }

/-- Witness for C10: the in-bounds height-less spawn panics at a concrete input. -/
theorem spawn_ghost_missing_height_panics_witness :
    ∃ wp, SpawnTerrainGhostCommand.write
      ⟨⟨2, 3⟩, 7, TerraformingAction.raiseAction, GhostKind.ghost⟩
      demoNoHeightWorld = CmdResult.panicked wp :=
  (spawn_ghost_missing_height_panics
      ⟨⟨2, 3⟩, 7, TerraformingAction.raiseAction, GhostKind.ghost⟩
      demoNoHeightWorld 42).2.1 (by decide) (by decide) (by decide)

end Emergence
